import Mathlib

/-!
Shallow embedding of the session orchestrator `kvz_rtp::media_stream`
(src/src/media_stream.cc) and proofs about its bootstrap, teardown,
frame-I/O and configuration surface.

External collaborators (socket, rtp, zrtp, srtp, sender, receiver) are out
of scope per the specification; only the state the orchestrator observes or
mutates through them is modelled, and the outcome of every fallible
collaborator call is an input supplied by an `Env` record.  Raw C++ pointer
members are modelled by `Ptr`, which distinguishes a slot that was never
written (indeterminate), a slot holding nullptr, and a slot pointing at a
live object; dereferencing or deleting an indeterminate slot has no defined
outcome, which the operations express by returning `Option`.
-/

set_option maxHeartbeats 1000000

namespace kvz_rtp

/-- Error codes (`rtp_error_t` from the library headers); only the codes the
orchestrator source can return or receive are modelled. -/
inductive rtp_error_t where
  | RTP_OK
  | RTP_GENERIC_ERROR
  | RTP_SOCKET_ERROR
  | RTP_BIND_ERROR
  | RTP_INVALID_VALUE
  | RTP_MEMORY_ERROR
  | RTP_SEND_ERROR
deriving DecidableEq, Repr

open rtp_error_t

/-- Payload format tag (`rtp_format_t`).  The orchestrator only stores and
forwards it, so an abstract enumerated tag suffices. -/
inductive rtp_format_t where
  | RTP_FORMAT_GENERIC
  | RTP_FORMAT_HEVC
  | RTP_FORMAT_OPUS
deriving DecidableEq, Repr

/-- A raw C++ pointer member: never assigned (indeterminate), assigned
nullptr, or pointing at a live object.  The orchestrator constructor
initializes `srtp_` and `media_config_` to nullptr but leaves `rtp_`,
`sender_` and `receiver_` out of its initializer list, so those start
indeterminate. -/
inductive Ptr (α : Type) where
  | uninit : Ptr α
  | null : Ptr α
  | valid : α → Ptr α
deriving DecidableEq, Repr

/-- Dereference (`operator->`): defined only on a pointer to a live object. -/
def Ptr.deref {α : Type} : Ptr α → Option α
  | .valid a => some a
  | _ => none

/-- `delete p` is well defined for nullptr and for a live object, but not
for an indeterminate pointer. -/
def Ptr.delete_ok {α : Type} : Ptr α → Option Unit
  | .uninit => none
  | _ => some ()

/-- Address part of a socket address: the wildcard `INADDR_ANY` or a
concrete presentation string handed to `create_sockaddr`. -/
inductive in_addr_t where
  | INADDR_ANY : in_addr_t
  | named : String → in_addr_t
deriving DecidableEq, Repr

def AF_INET : Nat := 2

def SOCK_DGRAM : Nat := 2

structure sockaddr_in where
  sin_family : Nat
  sin_addr : in_addr_t
  sin_port : Int
deriving DecidableEq, Repr

/-- The SRTP secure-transform collaborator (`kvz_rtp::srtp`); its internal
key state is out of scope, only its identity as a live object matters to the
orchestrator. -/
structure srtp where
deriving DecidableEq, Repr

/-- Observable state of the Transport collaborator (`kvz_rtp::socket`):
whether `init` succeeded, the local endpoint bound, the default remote
destination installed by `set_sockaddr`, and the secure transform bound by
`set_srtp`. -/
structure socket where
  created : Bool
  bound_addr : Option sockaddr_in
  remote_addr : Option sockaddr_in
  srtp_transform : Ptr srtp
deriving DecidableEq, Repr

/-- A default-constructed `kvz_rtp::socket` member. -/
def socket.default : socket :=
  { created := false, bound_addr := none, remote_addr := none,
    srtp_transform := Ptr.null }

/-- `socket_.create_sockaddr(family, addr, port)`: builds a `sockaddr_in`
from a presentation string. -/
def socket.create_sockaddr (family : Nat) (addr : String) (port : Int) :
    sockaddr_in :=
  { sin_family := family, sin_addr := in_addr_t.named addr, sin_port := port }

/-- The SessionContext collaborator (`kvz_rtp::rtp`), constructed from the
payload format; the SSRC it generates internally is an environment input. -/
structure rtp where
  fmt : rtp_format_t
  ssrc : Nat
deriving DecidableEq, Repr

/-- Observable state of the Sender collaborator: the configuration flags and
format it is wired with at construction, whether `init()` ran, and the
installed deallocation hook.  Function pointers are modelled by an abstract
identifier, `none` standing for nullptr. -/
structure sender where
  ctx_flags : Int
  fmt : rtp_format_t
  inited : Bool
  dealloc_hook : Option Nat
deriving DecidableEq, Repr

/-- Observable state of the Receiver collaborator: construction wiring,
whether `start()` ran, and the installed receive hook with its context
argument. -/
structure receiver where
  ctx_flags : Int
  fmt : rtp_format_t
  started : Bool
  recv_hook : Option Nat
  recv_hook_arg : Option Nat
deriving DecidableEq, Repr

/-- Modelled from the spec: the bounds `RCE_LAST` of the behavioral-flag
space and `RCC_LAST` of the indexed configuration table come from a library
header that is not under src/; the spec calls them the flag-space upper
bound and the indexed-table upper bound.  The concrete values below are
placeholders: every theorem in this file depends only on comparisons
against the bounds, never on their values. -/
def RCE_LAST : Int := 64

/-- Modelled from the spec: upper bound of the indexed configuration table,
see `RCE_LAST`. -/
def RCC_LAST : Int := 8

/-- ContextConfiguration (`rtp_ctx_configuration`): the behavioral-flag
bitmask and the indexed table `ctx_values` of `RCC_LAST` entries, all zero
when default-constructed. -/
structure rtp_ctx_configuration where
  flags : Int
  ctx_values : List Int
deriving DecidableEq, Repr

/-- A default-constructed `rtp_ctx_configuration` member. -/
def rtp_ctx_configuration.default : rtp_ctx_configuration :=
  { flags := 0, ctx_values := List.replicate RCC_LAST.toNat 0 }

/-- The session orchestrator state: every data member of
`kvz_rtp::media_stream`. -/
structure media_stream where
  fmt_ : rtp_format_t
  addr_ : String
  laddr_ : String
  flags_ : Int
  src_port_ : Int
  dst_port_ : Int
  key_ : Nat
  ctx_config_ : rtp_ctx_configuration
  media_config_ : Ptr Nat
  socket_ : socket
  addr_out_ : Option sockaddr_in
  rtp_ : Ptr rtp
  srtp_ : Ptr srtp
  sender_ : Ptr sender
  receiver_ : Ptr receiver
deriving DecidableEq, Repr

/-- Constructor `media_stream(addr, src_port, dst_port, fmt, flags)` (lines
8 to 23).  `random::generate_32()` is an external RNG call returning a
uint32_t; its draw is the parameter `rand32`, truncated to 32 bits.  The
members `rtp_`, `sender_` and `receiver_` appear neither in the initializer
list nor in the body, so they remain indeterminate. -/
def media_stream.construct (addr : String) (src_port dst_port : Int)
    (fmt : rtp_format_t) (flags : Int) (rand32 : Nat) : media_stream where
  fmt_ := fmt
  addr_ := addr
  laddr_ := ""
  flags_ := flags
  src_port_ := src_port
  dst_port_ := dst_port
  key_ := rand32 % 2 ^ 32
  ctx_config_ := { rtp_ctx_configuration.default with flags := flags }
  media_config_ := Ptr.null
  socket_ := socket.default
  addr_out_ := none
  rtp_ := Ptr.uninit
  srtp_ := Ptr.null
  sender_ := Ptr.uninit
  receiver_ := Ptr.uninit

/-- Constructor overload with an explicit local address (lines 25 to 33):
delegates to the other constructor, then overwrites `laddr_`. -/
def media_stream.construct_local (remote_addr local_addr : String)
    (src_port dst_port : Int) (fmt : rtp_format_t) (flags : Int)
    (rand32 : Nat) : media_stream :=
  { media_stream.construct remote_addr src_port dst_port fmt flags rand32 with
      laddr_ := local_addr }

/-- Outcomes of the fallible external-collaborator calls the orchestrator
makes; each field is the result the corresponding call reports when it is
reached. -/
structure Env where
  socket_init_result : rtp_error_t
  bind_syscall_ok : Bool
  socket_bind_result : rtp_error_t
  rtp_ssrc : Nat
  rtp_alloc_ok : Bool
  zrtp_init_result : rtp_error_t
  srtp_alloc_ok : Bool
  srtp_init_zrtp_result : rtp_error_t
  sender_push_result : rtp_error_t
  receiver_pull_result : Option Nat
deriving DecidableEq, Repr

/-- Shared tail of `init_connection` after a successful bind (lines 79 to
82): resolve the remote address and destination port into `addr_out_` and
install it on the socket as the default send target. -/
def media_stream.set_out_addr (s : media_stream) : media_stream :=
  let a := socket.create_sockaddr AF_INET s.addr_ s.dst_port_
  { s with addr_out_ := some a,
           socket_ := { s.socket_ with remote_addr := some a } }

/-- `init_connection()` (lines 46 to 83).  The `_WIN32` non-blocking block
is compiled out on the platforms in scope.  With a non-empty `laddr_` the
raw `::bind` call targets exactly (local address, source port); otherwise
`socket_.bind` targets (`INADDR_ANY`, source port). -/
def media_stream.init_connection (env : Env) (s : media_stream) :
    rtp_error_t × media_stream :=
  if env.socket_init_result ≠ RTP_OK then
    (env.socket_init_result, s)
  else
    let s1 := { s with socket_ := { s.socket_ with created := true } }
    if s1.laddr_ ≠ "" then
      let bind_addr := socket.create_sockaddr AF_INET s1.laddr_ s1.src_port_
      if ¬ env.bind_syscall_ok then
        (RTP_BIND_ERROR, s1)
      else
        (RTP_OK, media_stream.set_out_addr
          { s1 with socket_ := { s1.socket_ with bound_addr := some bind_addr } })
    else
      if env.socket_bind_result ≠ RTP_OK then
        (env.socket_bind_result, s1)
      else
        let any_addr : sockaddr_in :=
          { sin_family := AF_INET, sin_addr := in_addr_t.INADDR_ANY, sin_port := s1.src_port_ }
        (RTP_OK, media_stream.set_out_addr
          { s1 with socket_ := { s1.socket_ with bound_addr := some any_addr } })

/-- Construction and start effects of a bootstrap call, in program order. -/
inductive Event where
  | set_srtp
  | construct_sender
  | construct_receiver
  | sender_init
  | receiver_start
deriving DecidableEq, Repr

/-- Construction of the Sender collaborator with the wiring the
orchestrator passes: `new kvz_rtp::sender(socket_, ctx_config_, fmt_, rtp_)`. -/
def sender.construct (cfg : rtp_ctx_configuration) (fmt : rtp_format_t) : sender :=
  { ctx_flags := cfg.flags, fmt := fmt, inited := false, dealloc_hook := none }

/-- `sender_->init()`. -/
def sender.do_init (x : sender) : sender :=
  { x with inited := true }

/-- Construction of the Receiver collaborator with the wiring the
orchestrator passes: `new kvz_rtp::receiver(socket_, ctx_config_, fmt_, rtp_)`. -/
def receiver.construct (cfg : rtp_ctx_configuration) (fmt : rtp_format_t) : receiver :=
  { ctx_flags := cfg.flags, fmt := fmt, started := false,
    recv_hook := none, recv_hook_arg := none }

/-- `receiver_->start()`. -/
def receiver.do_start (x : receiver) : receiver :=
  { x with started := true }

/-- Plain bootstrap `init()` (lines 85 to 100): on connection failure the
specific error is discarded and `RTP_GENERIC_ERROR` is returned; otherwise
the SessionContext is allocated unchecked, Sender and Receiver are
constructed and started, and `RTP_OK` is returned.  The trace lists the
construction/start effects in program order. -/
def media_stream.init (env : Env) (s : media_stream) :
    rtp_error_t × media_stream × List Event :=
  match media_stream.init_connection env s with
  | (cr, s1) =>
    if cr ≠ RTP_OK then
      (RTP_GENERIC_ERROR, s1, [])
    else
      let s2 := { s1 with rtp_ := Ptr.valid ({ fmt := s1.fmt_, ssrc := env.rtp_ssrc } : rtp) }
      let snd := sender.construct s2.ctx_config_ s2.fmt_
      let rcv := receiver.construct s2.ctx_config_ s2.fmt_
      let s3 := { s2 with sender_ := Ptr.valid snd, receiver_ := Ptr.valid rcv }
      let s4 := { s3 with sender_ := Ptr.valid snd.do_init,
                          receiver_ := Ptr.valid rcv.do_start }
      (RTP_OK, s4,
        [Event.construct_sender, Event.construct_receiver,
         Event.sender_init, Event.receiver_start])

/-- Secure bootstrap `init(zrtp)` (lines 102 to 143, `__RTP_CRYPTO__`).
After connection establishment: allocate the SessionContext (checked
against nullptr here), run the ZRTP handshake over the already-bound
socket, allocate and key the SRTP context from the handshake result, bind
it into the Transport with `socket_.set_srtp`, and only then construct and
start Sender and Receiver.  Any failure returns the reported error with no
further effects; the trace lists the effects in program order. -/
def media_stream.init_zrtp (env : Env) (s : media_stream) :
    rtp_error_t × media_stream × List Event :=
  match media_stream.init_connection env s with
  | (cr, s1) =>
    if cr ≠ RTP_OK then
      (RTP_GENERIC_ERROR, s1, [])
    else
      if ¬ env.rtp_alloc_ok then
        (RTP_MEMORY_ERROR, { s1 with rtp_ := Ptr.null }, [])
      else
        let s2 := { s1 with rtp_ := Ptr.valid ({ fmt := s1.fmt_, ssrc := env.rtp_ssrc } : rtp) }
        if env.zrtp_init_result ≠ RTP_OK then
          (env.zrtp_init_result, s2, [])
        else if ¬ env.srtp_alloc_ok then
          (RTP_MEMORY_ERROR, { s2 with srtp_ := Ptr.null }, [])
        else
          let s3 := { s2 with srtp_ := Ptr.valid ({} : srtp) }
          if env.srtp_init_zrtp_result ≠ RTP_OK then
            (env.srtp_init_zrtp_result, s3, [])
          else
            let s4 := { s3 with socket_ := { s3.socket_ with srtp_transform := s3.srtp_ } }
            let snd := sender.construct s4.ctx_config_ s4.fmt_
            let rcv := receiver.construct s4.ctx_config_ s4.fmt_
            let s5 := { s4 with sender_ := Ptr.valid snd, receiver_ := Ptr.valid rcv }
            let s6 := { s5 with sender_ := Ptr.valid snd.do_init,
                                receiver_ := Ptr.valid rcv.do_start }
            (RTP_OK, s6,
              [Event.set_srtp, Event.construct_sender, Event.construct_receiver,
               Event.sender_init, Event.receiver_start])

/-- Teardown (the destructor, lines 35 to 44): `sender_->destroy()`,
`receiver_->stop()`, then `delete` of all four owned pointers, each step
unconditional.  Dereferencing or deleting a pointer member that was never
assigned has no defined outcome, so the whole teardown yields `none` in
that case. -/
def media_stream.destruct (s : media_stream) : Option Unit := do
  let _ ← s.sender_.deref
  let _ ← s.receiver_.deref
  let _ ← s.sender_.delete_ok
  let _ ← s.receiver_.delete_ok
  let _ ← s.rtp_.delete_ok
  let _ ← s.srtp_.delete_ok
  pure ()

/-- `push_frame` with a borrowed buffer (lines 145 to 148): forwards
unconditionally to `sender_->push_frame`; undefined when `sender_` was
never constructed. -/
def media_stream.push_frame (env : Env) (s : media_stream)
    (_data_len : Nat) (_flags : Int) : Option rtp_error_t :=
  s.sender_.deref.map fun _ => env.sender_push_result

/-- `push_frame` with an ownership-transferring buffer (lines 150 to 153):
same unconditional forwarding to `sender_->push_frame`. -/
def media_stream.push_frame_owned (env : Env) (s : media_stream)
    (_data_len : Nat) (_flags : Int) : Option rtp_error_t :=
  s.sender_.deref.map fun _ => env.sender_push_result

/-- `pull_frame()` (lines 155 to 158): forwards unconditionally to
`receiver_->pull_frame`; the inner option is the frame-or-null the Receiver
reports, the outer `none` means `receiver_` was never constructed. -/
def media_stream.pull_frame (env : Env) (s : media_stream) :
    Option (Option Nat) :=
  s.receiver_.deref.map fun _ => env.receiver_pull_result

/-- `install_receive_hook(arg, hook)` (lines 160 to 168): a nullptr hook is
rejected with `RTP_INVALID_VALUE` before anything is touched; otherwise the
hook is forwarded to `receiver_->install_recv_hook`, which is undefined
when `receiver_` was never constructed. -/
def media_stream.install_receive_hook (s : media_stream) (arg : Nat)
    (hook : Option Nat) : Option (rtp_error_t × media_stream) :=
  if hook = none then
    some (RTP_INVALID_VALUE, s)
  else
    s.receiver_.deref.map fun r =>
      let r2 := { r with recv_hook := hook, recv_hook_arg := some arg }
      (RTP_OK, { s with receiver_ := Ptr.valid r2 })

/-- `install_deallocation_hook(hook)` (lines 170 to 178): a nullptr hook is
rejected with `RTP_INVALID_VALUE` before anything is touched; otherwise the
hook is forwarded to `sender_->install_dealloc_hook`. -/
def media_stream.install_deallocation_hook (s : media_stream)
    (hook : Option Nat) : Option (rtp_error_t × media_stream) :=
  if hook = none then
    some (RTP_INVALID_VALUE, s)
  else
    s.sender_.deref.map fun snd =>
      (RTP_OK, { s with sender_ := Ptr.valid ({ snd with dealloc_hook := hook }) })

/-- `set_media_config(config)` (lines 180 to 183). -/
def media_stream.set_media_config (s : media_stream) (config : Ptr Nat) :
    media_stream :=
  { s with media_config_ := config }

/-- `get_media_config()` (lines 185 to 188). -/
def media_stream.get_media_config (s : media_stream) : Ptr Nat :=
  s.media_config_

/-- `configure_ctx(flag, value)` (lines 190 to 198): validated write into
the indexed table. -/
def media_stream.configure_ctx2 (s : media_stream) (flag : Int)
    (value : Int) : rtp_error_t × media_stream :=
  if flag < 0 ∨ RCC_LAST ≤ flag ∨ value < 0 then
    (RTP_INVALID_VALUE, s)
  else
    (RTP_OK, { s with ctx_config_ := { s.ctx_config_ with
        ctx_values := s.ctx_config_.ctx_values.set flag.toNat value } })

/-- `configure_ctx(flag)` (lines 200 to 208): validated bitwise OR into the
flag bitmask. -/
def media_stream.configure_ctx1 (s : media_stream) (flag : Int) :
    rtp_error_t × media_stream :=
  if flag < 0 ∨ RCE_LAST ≤ flag then
    (RTP_INVALID_VALUE, s)
  else
    (RTP_OK, { s with ctx_config_ := { s.ctx_config_ with
        flags := Int.lor s.ctx_config_.flags flag } })

/-- `get_key()` (lines 210 to 213). -/
def media_stream.get_key (s : media_stream) : Nat :=
  s.key_

/-- One caller-visible operation after construction, used to state that no
operation changes the session key. -/
inductive Op where
  | op_init
  | op_init_zrtp
  | op_push_frame (data_len : Nat) (flags : Int)
  | op_push_frame_owned (data_len : Nat) (flags : Int)
  | op_pull_frame
  | op_install_receive_hook (arg : Nat) (hook : Option Nat)
  | op_install_deallocation_hook (hook : Option Nat)
  | op_set_media_config (config : Ptr Nat)
  | op_configure_ctx2 (flag value : Int)
  | op_configure_ctx1 (flag : Int)
deriving Repr

/-- The orchestrator state after one operation: state-returning operations
take the returned state; operations whose outcome is undefined or that do
not touch the orchestrator leave the state in place. -/
def Op.apply (env : Env) (op : Op) (s : media_stream) : media_stream :=
  match op with
  | .op_init => (media_stream.init env s).2.1
  | .op_init_zrtp => (media_stream.init_zrtp env s).2.1
  | .op_push_frame _ _ => s
  | .op_push_frame_owned _ _ => s
  | .op_pull_frame => s
  | .op_install_receive_hook arg hook =>
      match media_stream.install_receive_hook s arg hook with
      | some (_, t) => t
      | none => s
  | .op_install_deallocation_hook hook =>
      match media_stream.install_deallocation_hook s hook with
      | some (_, t) => t
      | none => s
  | .op_set_media_config c => media_stream.set_media_config s c
  | .op_configure_ctx2 f v => (media_stream.configure_ctx2 s f v).2
  | .op_configure_ctx1 f => (media_stream.configure_ctx1 s f).2

/-- The orchestrator state after a sequence of operations. -/
def run_ops (env : Env) (s : media_stream) (ops : List Op) : media_stream :=
  ops.foldl (fun t op => Op.apply env op t) s

/-! ### Helper lemmas on bitwise operations -/

lemma nat_lor_lor_self (a b : Nat) : (a ||| b) ||| b = a ||| b := by
  apply Nat.eq_of_testBit_eq
  intro k
  simp [Nat.testBit_lor, Bool.or_assoc]

lemma nat_lor_self_eq (b : Nat) : b ||| b = b := by
  apply Nat.eq_of_testBit_eq
  intro k
  simp [Nat.testBit_lor]

lemma nat_land_land_self (a b : Nat) : (a &&& b) &&& b = a &&& b := by
  apply Nat.eq_of_testBit_eq
  intro k
  simp [Nat.testBit_land, Bool.and_assoc]

lemma nat_land_self_eq (b : Nat) : b &&& b = b := by
  apply Nat.eq_of_testBit_eq
  intro k
  simp [Nat.testBit_land]

lemma nat_ldiff_land_self (n m : Nat) : Nat.ldiff n m &&& n = Nat.ldiff n m := by
  apply Nat.eq_of_testBit_eq
  intro k
  simp only [Nat.testBit_land, Nat.testBit_ldiff]
  cases n.testBit k <;> cases m.testBit k <;> rfl

lemma nat_ldiff_ldiff_self (m n : Nat) : Nat.ldiff (Nat.ldiff m n) n = Nat.ldiff m n := by
  apply Nat.eq_of_testBit_eq
  intro k
  simp only [Nat.testBit_ldiff]
  cases m.testBit k <;> cases n.testBit k <;> rfl

/-- ORing the same operand in a second time changes nothing; this is the
algebraic core of the idempotence of `configure_ctx(flag)`. -/
lemma int_lor_lor_self (a b : Int) : Int.lor (Int.lor a b) b = Int.lor a b := by
  cases a <;> cases b <;>
    simp [Int.lor, nat_lor_lor_self, nat_land_land_self,
          nat_ldiff_land_self, nat_ldiff_ldiff_self]

lemma int_lor_self (b : Int) : Int.lor b b = b := by
  cases b <;> simp [Int.lor, nat_lor_self_eq, nat_land_self_eq]

/-! ### Concrete inputs used by witnesses and counterexamples -/

/-- An environment in which every collaborator call succeeds. -/
def env0 : Env :=
  { socket_init_result := RTP_OK, bind_syscall_ok := true,
    socket_bind_result := RTP_OK, rtp_ssrc := 7, rtp_alloc_ok := true,
    zrtp_init_result := RTP_OK, srtp_alloc_ok := true,
    srtp_init_zrtp_result := RTP_OK, sender_push_result := RTP_OK,
    receiver_pull_result := none }

/-- An environment in which the transport creation step fails. -/
def env_sock_fail : Env :=
  { env0 with socket_init_result := RTP_SOCKET_ERROR }

/-- An environment in which the ZRTP handshake fails. -/
def env_zrtp_fail : Env :=
  { env0 with zrtp_init_result := RTP_SEND_ERROR }

/-- A freshly constructed orchestrator without a local address. -/
def s_plain : media_stream :=
  media_stream.construct "203.0.113.5" 5004 5004 rtp_format_t.RTP_FORMAT_HEVC 0 42

/-- A freshly constructed orchestrator with an explicit local address. -/
def s_local : media_stream :=
  media_stream.construct_local "203.0.113.5" "10.0.0.1" 5004 5004
    rtp_format_t.RTP_FORMAT_HEVC 0 42

/-- The orchestrator after a successful plain bootstrap. -/
def s_active : media_stream :=
  (media_stream.init env0 s_plain).2.1

/-! ### Claim theorems -/

/-- C2: the claim says teardown is a no-op on resources that were never
constructed.  The code contradicts it: the destructor unconditionally calls
sender_->destroy() and receiver_->stop() and deletes all four owned
pointers, so on an orchestrator whose bootstrap was never invoked it acts
on the indeterminate sender_/receiver_/rtp_ members and has no defined
outcome (`none`), for either constructor overload. -/
theorem teardown_unbootstrapped_undefined :
    ∀ (addr laddr : String) (sp dp : Int) (fmt : rtp_format_t) (flags : Int) (r : Nat),
    media_stream.destruct (media_stream.construct addr sp dp fmt flags r) = none ∧
    media_stream.destruct
      (media_stream.construct_local addr laddr sp dp fmt flags r) = none := by
  intro addr laddr sp dp fmt flags r
  constructor <;> rfl

/-- C3: the claim says push_frame/pull_frame fail safely after a failed
bootstrap.  The code contradicts it: when plain bootstrap fails at
connection establishment, sender_ and receiver_ are still the indeterminate
members the constructor left, yet push_frame and pull_frame forward to them
unconditionally, so the calls have no defined outcome (`none`) instead of
returning an error or an empty result. -/
theorem frame_io_after_failed_bootstrap_undefined :
    ∀ (env : Env) (addr : String) (sp dp : Int) (fmt : rtp_format_t)
      (flags : Int) (r dl : Nat) (fl : Int),
    media_stream.init { env with socket_init_result := RTP_SOCKET_ERROR }
        (media_stream.construct addr sp dp fmt flags r) =
      (RTP_GENERIC_ERROR,
       (media_stream.init { env with socket_init_result := RTP_SOCKET_ERROR }
         (media_stream.construct addr sp dp fmt flags r)).2.1, []) ∧
    media_stream.push_frame { env with socket_init_result := RTP_SOCKET_ERROR }
      (media_stream.init { env with socket_init_result := RTP_SOCKET_ERROR }
        (media_stream.construct addr sp dp fmt flags r)).2.1 dl fl = none ∧
    media_stream.push_frame_owned { env with socket_init_result := RTP_SOCKET_ERROR }
      (media_stream.init { env with socket_init_result := RTP_SOCKET_ERROR }
        (media_stream.construct addr sp dp fmt flags r)).2.1 dl fl = none ∧
    media_stream.pull_frame { env with socket_init_result := RTP_SOCKET_ERROR }
      (media_stream.init { env with socket_init_result := RTP_SOCKET_ERROR }
        (media_stream.construct addr sp dp fmt flags r)).2.1 = none := by
  intro env addr sp dp fmt flags r dl fl
  refine ⟨rfl, rfl, rfl, rfl⟩

/-- C10: constructing with the explicit-local-address overload and the
empty string yields exactly the state of the no-local-address constructor —
the empty string is the sentinel for no local address — and therefore
connection establishment (and both bootstrap paths) behave identically,
taking the wildcard-bind branch. -/
theorem construct_local_empty_behaves_as_wildcard :
    ∀ (remote : String) (sp dp : Int) (fmt : rtp_format_t) (flags : Int) (r : Nat),
    media_stream.construct_local remote "" sp dp fmt flags r =
      media_stream.construct remote sp dp fmt flags r ∧
    ∀ env : Env,
      media_stream.init_connection env
          (media_stream.construct_local remote "" sp dp fmt flags r) =
        media_stream.init_connection env
          (media_stream.construct remote sp dp fmt flags r) ∧
      media_stream.init env (media_stream.construct_local remote "" sp dp fmt flags r) =
        media_stream.init env (media_stream.construct remote sp dp fmt flags r) ∧
      media_stream.init_zrtp env
          (media_stream.construct_local remote "" sp dp fmt flags r) =
        media_stream.init_zrtp env (media_stream.construct remote sp dp fmt flags r) := by
  intro remote sp dp fmt flags r
  refine ⟨rfl, fun env => ⟨rfl, rfl, rfl⟩⟩

/-- C6: configure_ctx(flag) rejects a negative or out-of-bound flag with an
invalid-value error leaving the bitmask (and all state) unchanged; a valid
flag is ORed into the bitmask with success returned; applying the same flag
twice yields the same bitmask as once, in particular when the flag was
already set at construction. -/
theorem configure_ctx_flag_validates_ors_idempotent :
    ∀ (s : media_stream) (flag : Int),
    ((flag < 0 ∨ RCE_LAST ≤ flag) →
       media_stream.configure_ctx1 s flag = (RTP_INVALID_VALUE, s)) ∧
    (0 ≤ flag → flag < RCE_LAST →
       media_stream.configure_ctx1 s flag =
         (RTP_OK, { s with ctx_config_ := { s.ctx_config_ with flags := Int.lor s.ctx_config_.flags flag } })) ∧
    (media_stream.configure_ctx1
        (media_stream.configure_ctx1 s flag).2 flag).2.ctx_config_.flags =
      (media_stream.configure_ctx1 s flag).2.ctx_config_.flags ∧
    ∀ (addr : String) (sp dp : Int) (fmt : rtp_format_t) (r : Nat),
      0 ≤ flag → flag < RCE_LAST →
      (media_stream.configure_ctx1
          (media_stream.construct addr sp dp fmt flag r) flag).1 = RTP_OK ∧
      (media_stream.configure_ctx1
          (media_stream.construct addr sp dp fmt flag r) flag).2.ctx_config_.flags = flag := by
  intro s flag
  refine ⟨?_, ?_, ?_, ?_⟩
  · intro h
    simp only [media_stream.configure_ctx1, if_pos h]
  · intro h1 h2
    simp only [media_stream.configure_ctx1, if_neg (by omega : ¬ (flag < 0 ∨ RCE_LAST ≤ flag))]
  · by_cases h : flag < 0 ∨ RCE_LAST ≤ flag
    · simp only [media_stream.configure_ctx1, if_pos h]
    · simp only [media_stream.configure_ctx1, if_neg h]
      exact int_lor_lor_self s.ctx_config_.flags flag
  · intro addr sp dp fmt r h1 h2
    have h : ¬ (flag < 0 ∨ RCE_LAST ≤ flag) := by omega
    constructor
    · simp only [media_stream.configure_ctx1, if_neg h]
    · simp only [media_stream.configure_ctx1, if_neg h, media_stream.construct]
      exact int_lor_self flag

/-- C6 witness: a concrete valid flag is accepted and ORed in. -/
theorem configure_ctx_flag_witness :
    media_stream.configure_ctx1 s_plain 4 =
      (RTP_OK, { s_plain with ctx_config_ := { s_plain.ctx_config_ with flags := Int.lor s_plain.ctx_config_.flags 4 } }) ∧
    media_stream.configure_ctx1 s_plain (-1) = (RTP_INVALID_VALUE, s_plain) :=
  ⟨(configure_ctx_flag_validates_ors_idempotent s_plain 4).2.1 (by decide) (by decide),
   (configure_ctx_flag_validates_ors_idempotent s_plain (-1)).1 (by decide)⟩

/-- C7: configure_ctx(flag, value) rejects a negative or out-of-bound key
or a negative value with an invalid-value error and leaves all state
unchanged; otherwise it writes exactly the entry at index flag and returns
success. -/
theorem configure_ctx_value_validates_and_sets :
    ∀ (s : media_stream) (flag value : Int),
    ((flag < 0 ∨ RCC_LAST ≤ flag ∨ value < 0) →
       media_stream.configure_ctx2 s flag value = (RTP_INVALID_VALUE, s)) ∧
    (0 ≤ flag → flag < RCC_LAST → 0 ≤ value →
       media_stream.configure_ctx2 s flag value =
         (RTP_OK, { s with ctx_config_ := { s.ctx_config_ with ctx_values := s.ctx_config_.ctx_values.set flag.toNat value } }) ∧
       (s.ctx_config_.ctx_values.length = RCC_LAST.toNat →
          (media_stream.configure_ctx2 s flag value).2.ctx_config_.ctx_values[flag.toNat]? =
            some value) ∧
       ∀ j : Nat, j ≠ flag.toNat →
         (media_stream.configure_ctx2 s flag value).2.ctx_config_.ctx_values[j]? =
           s.ctx_config_.ctx_values[j]?) := by
  intro s flag value
  constructor
  · intro h
    simp only [media_stream.configure_ctx2, if_pos h]
  · intro h1 h2 h3
    have h : ¬ (flag < 0 ∨ RCC_LAST ≤ flag ∨ value < 0) := by omega
    refine ⟨by simp only [media_stream.configure_ctx2, if_neg h], ?_, ?_⟩
    · intro hlen
      have hidx : flag.toNat < s.ctx_config_.ctx_values.length := by
        rw [hlen]; omega
      simp only [media_stream.configure_ctx2, if_neg h]
      rw [List.getElem?_set_self]
      · simp [List.getElem?_eq_getElem, hidx]
    · intro j hj
      simp only [media_stream.configure_ctx2, if_neg h]
      exact List.getElem?_set_ne (fun hh => hj hh.symm)

/-- C7 witness: a concrete valid write lands at its index, a concrete
invalid one is rejected with the state unchanged. -/
theorem configure_ctx_value_witness :
    media_stream.configure_ctx2 s_plain 3 9 =
      (RTP_OK, { s_plain with ctx_config_ := { s_plain.ctx_config_ with ctx_values := s_plain.ctx_config_.ctx_values.set (3 : Int).toNat 9 } }) ∧
    media_stream.configure_ctx2 s_plain 3 (-2) = (RTP_INVALID_VALUE, s_plain) :=
  ⟨((configure_ctx_value_validates_and_sets s_plain 3 9).2 (by decide) (by decide)
      (by decide)).1,
   (configure_ctx_value_validates_and_sets s_plain 3 (-2)).1 (by decide)⟩

/-- C8: install_receive_hook and install_deallocation_hook reject a null
callback with an invalid-value error, registering nothing and changing no
state; a non-null callback is registered on the live Receiver resp. Sender
with success returned. -/
theorem install_hooks_null_rejected :
    ∀ (s : media_stream) (arg : Nat),
    media_stream.install_receive_hook s arg none = some (RTP_INVALID_VALUE, s) ∧
    media_stream.install_deallocation_hook s none = some (RTP_INVALID_VALUE, s) ∧
    (∀ (h : Nat) (r : receiver), s.receiver_ = Ptr.valid r →
       media_stream.install_receive_hook s arg (some h) =
         some (RTP_OK, { s with receiver_ := Ptr.valid { r with recv_hook := some h, recv_hook_arg := some arg } })) ∧
    (∀ (h : Nat) (snd : sender), s.sender_ = Ptr.valid snd →
       media_stream.install_deallocation_hook s (some h) =
         some (RTP_OK, { s with sender_ := Ptr.valid { snd with dealloc_hook := some h } })) := by
  intro s arg
  refine ⟨rfl, rfl, ?_, ?_⟩
  · intro h r hr
    simp [media_stream.install_receive_hook, hr, Ptr.deref]
  · intro h snd hs
    simp [media_stream.install_deallocation_hook, hs, Ptr.deref]

/-- Receiver state of `s_active` (constructed and started by the plain
bootstrap). -/
def rcv_active : receiver :=
  { ctx_flags := 0, fmt := rtp_format_t.RTP_FORMAT_HEVC, started := true,
    recv_hook := none, recv_hook_arg := none }

/-- Sender state of `s_active`. -/
def snd_active : sender :=
  { ctx_flags := 0, fmt := rtp_format_t.RTP_FORMAT_HEVC, inited := true,
    dealloc_hook := none }

/-- C8 witness: on a bootstrapped orchestrator, concrete non-null hooks are
registered with success. -/
theorem install_hooks_witness :
    media_stream.install_receive_hook s_active 5 (some 3) =
      some (RTP_OK, { s_active with receiver_ := Ptr.valid { rcv_active with recv_hook := some 3, recv_hook_arg := some 5 } }) ∧
    media_stream.install_deallocation_hook s_active (some 4) =
      some (RTP_OK, { s_active with sender_ := Ptr.valid { snd_active with dealloc_hook := some 4 } }) :=
  ⟨(install_hooks_null_rejected s_active 5).2.2.1 3 rcv_active (by decide),
   (install_hooks_null_rejected s_active 5).2.2.2 4 snd_active (by decide)⟩

/-- Connection establishment touches only the socket and the destination
members: the bootstrap members (sender_, receiver_, rtp_, srtp_), the key,
the configuration and the endpoint descriptor are untouched. -/
lemma init_connection_preserves (env : Env) (s : media_stream) :
    (media_stream.init_connection env s).2.sender_ = s.sender_ ∧
    (media_stream.init_connection env s).2.receiver_ = s.receiver_ ∧
    (media_stream.init_connection env s).2.rtp_ = s.rtp_ ∧
    (media_stream.init_connection env s).2.srtp_ = s.srtp_ ∧
    (media_stream.init_connection env s).2.key_ = s.key_ ∧
    (media_stream.init_connection env s).2.laddr_ = s.laddr_ ∧
    (media_stream.init_connection env s).2.ctx_config_ = s.ctx_config_ ∧
    (media_stream.init_connection env s).2.fmt_ = s.fmt_ ∧
    (media_stream.init_connection env s).2.socket_.srtp_transform =
      s.socket_.srtp_transform := by
  simp only [media_stream.init_connection, media_stream.set_out_addr]
  split_ifs <;> exact ⟨rfl, rfl, rfl, rfl, rfl, rfl, rfl, rfl, rfl⟩

/-- When connection establishment fails, the local bind, the resolved
destination and the default remote target are all left as they were. -/
lemma init_connection_fail_state (env : Env) (s : media_stream) :
    (media_stream.init_connection env s).1 ≠ RTP_OK →
    (media_stream.init_connection env s).2.socket_.bound_addr = s.socket_.bound_addr ∧
    (media_stream.init_connection env s).2.addr_out_ = s.addr_out_ ∧
    (media_stream.init_connection env s).2.socket_.remote_addr =
      s.socket_.remote_addr := by
  simp only [media_stream.init_connection, media_stream.set_out_addr]
  split_ifs <;> intro h <;> simp_all

/-- Plain bootstrap on a failed connection: the coarse generic error is
returned, the state is the one init_connection left, and no construction or
start effect happens. -/
lemma plain_init_fail_aux (env : Env) (s : media_stream)
    (hf : (media_stream.init_connection env s).1 ≠ RTP_OK) :
    media_stream.init env s =
      (RTP_GENERIC_ERROR, (media_stream.init_connection env s).2, []) := by
  unfold media_stream.init
  cases h : media_stream.init_connection env s with
  | mk cr s1 =>
    rw [h] at hf
    simp only at hf
    simp [hf]

/-- Plain bootstrap on a successful connection returns RTP_OK. -/
lemma plain_init_ok_aux (env : Env) (s : media_stream)
    (hf : (media_stream.init_connection env s).1 = RTP_OK) :
    (media_stream.init env s).1 = RTP_OK := by
  unfold media_stream.init
  cases h : media_stream.init_connection env s with
  | mk cr s1 =>
    rw [h] at hf
    simp only at hf
    simp [hf]

/-- C4 counterexample: with transport creation failing as RTP_SOCKET_ERROR,
plain bootstrap returns RTP_GENERIC_ERROR — neither success, nor the
connection-level error the failing step produced, nor a resource-allocation
error — refuting the claimed exhaustive list of return kinds. -/
theorem plain_init_discards_connection_error :
    (media_stream.init env_sock_fail s_plain).1 = RTP_GENERIC_ERROR ∧
    (media_stream.init_connection env_sock_fail s_plain).1 = RTP_SOCKET_ERROR ∧
    (media_stream.init env_sock_fail s_plain).1 ≠ RTP_OK ∧
    (media_stream.init env_sock_fail s_plain).1 ≠
      (media_stream.init_connection env_sock_fail s_plain).1 ∧
    (media_stream.init env_sock_fail s_plain).1 ≠ RTP_MEMORY_ERROR := by
  refine ⟨rfl, rfl, by decide, by decide, by decide⟩

/-- C4 amended: plain bootstrap returns success or the single coarse error
RTP_GENERIC_ERROR — the latter exactly when connection establishment fails,
whose specific error is discarded; no resource-allocation error exists on
this path; and on failure no partial session becomes active: the state is
the one connection establishment left, Sender and Receiver stay
unconstructed and no start effect occurs. -/
theorem plain_init_ok_or_generic :
    ∀ (env : Env) (s : media_stream),
    ((media_stream.init env s).1 = RTP_OK ∨
     (media_stream.init env s).1 = RTP_GENERIC_ERROR) ∧
    ((media_stream.init env s).1 = RTP_GENERIC_ERROR ↔
       (media_stream.init_connection env s).1 ≠ RTP_OK) ∧
    ((media_stream.init_connection env s).1 ≠ RTP_OK →
       (media_stream.init env s).2.1 = (media_stream.init_connection env s).2 ∧
       (media_stream.init env s).2.1.sender_ = s.sender_ ∧
       (media_stream.init env s).2.1.receiver_ = s.receiver_ ∧
       (media_stream.init env s).2.2 = []) := by
  intro env s
  have hpres := init_connection_preserves env s
  by_cases hf : (media_stream.init_connection env s).1 = RTP_OK
  · have hok := plain_init_ok_aux env s hf
    refine ⟨Or.inl hok, ?_, ?_⟩
    · rw [hok]
      simp [hf]
    · intro hc
      exact absurd hf hc
  · have heq := plain_init_fail_aux env s hf
    rw [heq]
    refine ⟨Or.inr rfl, by simp [hf], ?_⟩
    intro _
    exact ⟨rfl, hpres.1, hpres.2.1, rfl⟩

/-- C4 witness: the amended statement evaluated at a concrete succeeding
environment and at a concrete failing one. -/
theorem plain_init_ok_or_generic_witness :
    ((media_stream.init env0 s_plain).1 = RTP_OK ∨
     (media_stream.init env0 s_plain).1 = RTP_GENERIC_ERROR) ∧
    ((media_stream.init env_sock_fail s_plain).2.1.sender_ = s_plain.sender_ ∧
     (media_stream.init env_sock_fail s_plain).2.2 = ([] : List Event)) :=
  ⟨(plain_init_ok_or_generic env0 s_plain).1,
   ⟨((plain_init_ok_or_generic env_sock_fail s_plain).2.2 (by decide)).2.1,
    ((plain_init_ok_or_generic env_sock_fail s_plain).2.2 (by decide)).2.2.2⟩⟩

/-- C5: connection establishment binds exactly to (supplied local address,
source port) when an explicit local address was given, and to (wildcard,
source port) otherwise; any failing establishment step aborts bootstrap
with nothing further constructed — no destination resolved or installed,
and the plain bootstrap wrapping it constructs and starts nothing. -/
theorem init_connection_binds_supplied_or_wildcard :
    ∀ (env : Env) (s : media_stream),
    (env.socket_init_result = RTP_OK → env.bind_syscall_ok = true → s.laddr_ ≠ "" →
       (media_stream.init_connection env s).1 = RTP_OK ∧
       (media_stream.init_connection env s).2.socket_.bound_addr =
         some (socket.create_sockaddr AF_INET s.laddr_ s.src_port_)) ∧
    (env.socket_init_result = RTP_OK → env.socket_bind_result = RTP_OK → s.laddr_ = "" →
       (media_stream.init_connection env s).1 = RTP_OK ∧
       (media_stream.init_connection env s).2.socket_.bound_addr =
         some { sin_family := AF_INET, sin_addr := in_addr_t.INADDR_ANY, sin_port := s.src_port_ }) ∧
    ((media_stream.init_connection env s).1 ≠ RTP_OK →
       (media_stream.init_connection env s).2.socket_.bound_addr = s.socket_.bound_addr ∧
       (media_stream.init_connection env s).2.addr_out_ = s.addr_out_ ∧
       (media_stream.init_connection env s).2.socket_.remote_addr = s.socket_.remote_addr ∧
       (media_stream.init env s).1 = RTP_GENERIC_ERROR ∧
       (media_stream.init env s).2.1.sender_ = s.sender_ ∧
       (media_stream.init env s).2.1.receiver_ = s.receiver_ ∧
       (media_stream.init env s).2.2 = []) := by
  intro env s
  refine ⟨?_, ?_, ?_⟩
  · intro h1 h2 h3
    simp [media_stream.init_connection, media_stream.set_out_addr, h1, h2, h3]
  · intro h1 h2 h3
    simp [media_stream.init_connection, media_stream.set_out_addr, h1, h2, h3]
  · intro hf
    have hst := init_connection_fail_state env s hf
    have heq := plain_init_fail_aux env s hf
    have hpres := init_connection_preserves env s
    rw [heq]
    exact ⟨hst.1, hst.2.1, hst.2.2, rfl, hpres.1, hpres.2.1, rfl⟩

/-- C5 witness: with an explicit local address the bind target is exactly
that address with the source port; without one it is the wildcard. -/
theorem init_connection_binds_witness :
    (media_stream.init_connection env0 s_local).2.socket_.bound_addr =
      some (socket.create_sockaddr AF_INET "10.0.0.1" 5004) ∧
    (media_stream.init_connection env0 s_plain).2.socket_.bound_addr =
      some { sin_family := AF_INET, sin_addr := in_addr_t.INADDR_ANY, sin_port := 5004 } :=
  ⟨((init_connection_binds_supplied_or_wildcard env0 s_local).1 rfl rfl
      (by decide)).2,
   ((init_connection_binds_supplied_or_wildcard env0 s_plain).2.1 rfl rfl
      (by decide)).2⟩

/-- Plain bootstrap never touches the session key. -/
lemma key_init (env : Env) (s : media_stream) :
    (media_stream.init env s).2.1.key_ = s.key_ := by
  have hk := (init_connection_preserves env s).2.2.2.2.1
  unfold media_stream.init
  cases h : media_stream.init_connection env s with
  | mk cr s1 =>
    rw [h] at hk
    by_cases hcr : cr = RTP_OK <;> simp [hcr] <;> exact hk

/-- Secure bootstrap never touches the session key. -/
lemma key_init_zrtp (env : Env) (s : media_stream) :
    (media_stream.init_zrtp env s).2.1.key_ = s.key_ := by
  have hk := (init_connection_preserves env s).2.2.2.2.1
  unfold media_stream.init_zrtp
  cases h : media_stream.init_connection env s with
  | mk cr s1 =>
    rw [h] at hk
    by_cases hcr : cr = RTP_OK <;> split_ifs <;> simp [hcr] <;> simp_all

/-- No caller-visible operation after construction changes the session key. -/
lemma key_op (env : Env) (op : Op) (s : media_stream) :
    (Op.apply env op s).key_ = s.key_ := by
  cases op with
  | op_init => exact key_init env s
  | op_init_zrtp => exact key_init_zrtp env s
  | op_push_frame dl fl => rfl
  | op_push_frame_owned dl fl => rfl
  | op_pull_frame => rfl
  | op_install_receive_hook arg hook =>
    cases hook with
    | none => rfl
    | some h =>
      cases hr : s.receiver_ <;>
        simp [Op.apply, media_stream.install_receive_hook, hr, Ptr.deref]
  | op_install_deallocation_hook hook =>
    cases hook with
    | none => rfl
    | some h =>
      cases hs : s.sender_ <;>
        simp [Op.apply, media_stream.install_deallocation_hook, hs, Ptr.deref]
  | op_set_media_config c => rfl
  | op_configure_ctx2 f v =>
    simp only [Op.apply, media_stream.configure_ctx2]
    split_ifs <;> rfl
  | op_configure_ctx1 f =>
    simp only [Op.apply, media_stream.configure_ctx1]
    split_ifs <;> rfl

/-- C9: get_key returns the 32-bit identity drawn at construction (the
generate_32 result, a value below 2^32), and no sequence of later
operations — bootstrap, frame I/O, hooks, configuration — changes it. -/
theorem get_key_fixed_at_construction :
    ∀ (env : Env) (ops : List Op) (addr : String) (sp dp : Int)
      (fmt : rtp_format_t) (flags : Int) (r : Nat),
    media_stream.get_key
        (run_ops env (media_stream.construct addr sp dp fmt flags r) ops) =
      media_stream.get_key (media_stream.construct addr sp dp fmt flags r) ∧
    media_stream.get_key (media_stream.construct addr sp dp fmt flags r) =
      r % 2 ^ 32 ∧
    media_stream.get_key (media_stream.construct addr sp dp fmt flags r) < 2 ^ 32 ∧
    ∀ t : media_stream,
      media_stream.get_key (run_ops env t ops) = media_stream.get_key t := by
  intro env ops addr sp dp fmt flags r
  have hrun : ∀ t : media_stream,
      media_stream.get_key (run_ops env t ops) = media_stream.get_key t := by
    intro t
    induction ops generalizing t with
    | nil => rfl
    | cons op rest ih =>
      have h1 : media_stream.get_key (Op.apply env op t) = media_stream.get_key t :=
        key_op env op t
      calc media_stream.get_key (run_ops env t (op :: rest))
          = media_stream.get_key (run_ops env (Op.apply env op t) rest) := rfl
        _ = media_stream.get_key (Op.apply env op t) := ih (Op.apply env op t)
        _ = media_stream.get_key t := h1
  exact ⟨hrun _, rfl, Nat.mod_lt _ (by norm_num), hrun⟩

/-- When the ZRTP handshake fails during secure bootstrap, init returns the
handshake error immediately: the state is the post-connection state with
only the SessionContext allocated, and the effect trace is empty. -/
lemma init_zrtp_handshake_fail_aux (env : Env) (s : media_stream)
    (hconn : (media_stream.init_connection env s).1 = RTP_OK)
    (halloc : env.rtp_alloc_ok = true)
    (hz : env.zrtp_init_result ≠ RTP_OK) :
    media_stream.init_zrtp env s =
      (env.zrtp_init_result,
       { (media_stream.init_connection env s).2 with rtp_ := Ptr.valid { fmt := (media_stream.init_connection env s).2.fmt_, ssrc := env.rtp_ssrc } },
       []) := by
  unfold media_stream.init_zrtp
  cases h : media_stream.init_connection env s with
  | mk cr s1 =>
    rw [h] at hconn
    simp only at hconn
    simp [h, hconn, halloc, hz]

/-- When secure bootstrap returns RTP_OK every step succeeded, and the
final state and trace have the successful shape: the secure transform is
bound into the Transport, Sender and Receiver are live and started, and the
trace is exactly the five effects in program order. -/
lemma init_zrtp_ok_shape (env : Env) (s : media_stream)
    (hOK : (media_stream.init_zrtp env s).1 = RTP_OK) :
    (media_stream.init_zrtp env s).2.2 =
      [Event.set_srtp, Event.construct_sender, Event.construct_receiver, Event.sender_init, Event.receiver_start] ∧
    (∃ x : srtp, (media_stream.init_zrtp env s).2.1.socket_.srtp_transform = Ptr.valid x) ∧
    (∃ snd : sender, (media_stream.init_zrtp env s).2.1.sender_ = Ptr.valid snd ∧ snd.inited = true) ∧
    (∃ rcv : receiver, (media_stream.init_zrtp env s).2.1.receiver_ = Ptr.valid rcv ∧ rcv.started = true) := by
  unfold media_stream.init_zrtp at hOK ⊢
  cases h : media_stream.init_connection env s with
  | mk cr s1 =>
    rw [h] at hOK
    by_cases hcr : cr = RTP_OK
    · by_cases ha : env.rtp_alloc_ok
      · by_cases hz : env.zrtp_init_result = RTP_OK
        · by_cases hsa : env.srtp_alloc_ok
          · by_cases hsi : env.srtp_init_zrtp_result = RTP_OK
            · simp [hcr, ha, hz, hsa, hsi, sender.construct, sender.do_init,
                    receiver.construct, receiver.do_start]
              exact ⟨⟨⟩, trivial⟩
            · simp [hcr, ha, hz, hsa, hsi] at hOK
          · simp [hcr, ha, hz, hsa] at hOK
        · simp [hcr, ha, hz] at hOK
      · simp [hcr, ha] at hOK
    · simp [hcr] at hOK

/-- C1: if the ZRTP handshake fails during secure bootstrap, init returns
exactly the handshake error, the secure transform is never bound into the
Transport and Sender/Receiver are never constructed or started (no effect
in the trace); and on every successful secure bootstrap the trace shows the
secure transform bound strictly before Sender and Receiver are constructed
and started, with the final state carrying a bound transform and live,
started Sender and Receiver. -/
theorem secure_bootstrap_gate_and_ordering :
    ∀ (env : Env) (s : media_stream),
    ((media_stream.init_connection env s).1 = RTP_OK → env.rtp_alloc_ok = true →
     env.zrtp_init_result ≠ RTP_OK →
       (media_stream.init_zrtp env s).1 = env.zrtp_init_result ∧
       (media_stream.init_zrtp env s).2.1.sender_ = s.sender_ ∧
       (media_stream.init_zrtp env s).2.1.receiver_ = s.receiver_ ∧
       (media_stream.init_zrtp env s).2.1.socket_.srtp_transform = s.socket_.srtp_transform ∧
       (media_stream.init_zrtp env s).2.2 = []) ∧
    ((media_stream.init_zrtp env s).1 = RTP_OK →
       (media_stream.init_zrtp env s).2.2 =
         [Event.set_srtp, Event.construct_sender, Event.construct_receiver, Event.sender_init, Event.receiver_start] ∧
       List.indexOf Event.set_srtp (media_stream.init_zrtp env s).2.2 <
         List.indexOf Event.construct_sender (media_stream.init_zrtp env s).2.2 ∧
       List.indexOf Event.set_srtp (media_stream.init_zrtp env s).2.2 <
         List.indexOf Event.construct_receiver (media_stream.init_zrtp env s).2.2 ∧
       List.indexOf Event.set_srtp (media_stream.init_zrtp env s).2.2 <
         List.indexOf Event.sender_init (media_stream.init_zrtp env s).2.2 ∧
       List.indexOf Event.set_srtp (media_stream.init_zrtp env s).2.2 <
         List.indexOf Event.receiver_start (media_stream.init_zrtp env s).2.2 ∧
       (∃ x : srtp, (media_stream.init_zrtp env s).2.1.socket_.srtp_transform = Ptr.valid x) ∧
       (∃ snd : sender, (media_stream.init_zrtp env s).2.1.sender_ = Ptr.valid snd ∧ snd.inited = true) ∧
       (∃ rcv : receiver, (media_stream.init_zrtp env s).2.1.receiver_ = Ptr.valid rcv ∧ rcv.started = true)) := by
  intro env s
  have hpres := init_connection_preserves env s
  constructor
  · intro hconn halloc hz
    have heq := init_zrtp_handshake_fail_aux env s hconn halloc hz
    rw [heq]
    exact ⟨rfl, hpres.1, hpres.2.1, hpres.2.2.2.2.2.2.2.2, rfl⟩
  · intro hOK
    obtain ⟨htr, hx, hsnd, hrcv⟩ := init_zrtp_ok_shape env s hOK
    rw [htr]
    exact ⟨rfl, by decide, by decide, by decide, by decide, hx, hsnd, hrcv⟩

/-- C1 witness: with a concrete failing handshake the handshake error is
surfaced and nothing is constructed; with a concrete succeeding one the
trace is the ordered five effects. -/
theorem secure_bootstrap_gate_witness :
    ((media_stream.init_zrtp env_zrtp_fail s_plain).1 = RTP_SEND_ERROR ∧
     (media_stream.init_zrtp env_zrtp_fail s_plain).2.2 = ([] : List Event)) ∧
    (media_stream.init_zrtp env0 s_plain).2.2 =
      [Event.set_srtp, Event.construct_sender, Event.construct_receiver, Event.sender_init, Event.receiver_start] := by
  have h1 := (secure_bootstrap_gate_and_ordering env_zrtp_fail s_plain).1
    (by decide) rfl (by decide)
  have h2 := (secure_bootstrap_gate_and_ordering env0 s_plain).2 (by decide)
  exact ⟨⟨h1.1, h1.2.2.2.2⟩, h2.1⟩

end kvz_rtp
